import Mathlib

/-!
Verification development for the ggame sprite/collision/event core
(`ggame.py`).  The Python source is shallowly embedded below: sprite
state becomes a Lean structure, the property setters become state
transformers, the extents/collision routines become functions over that
state, and the event-routing and registry code of `App` becomes pure
functions over an explicit registry state.  Floating-point arithmetic in
the source is modelled by exact real arithmetic; Python `int()`
truncation and float floor-division are modelled explicitly.
-/

namespace GGame

/-- Shape assets of ggame (`ImageAsset`, `RectangleAsset`, `CircleAsset`,
`EllipseAsset`, `PolygonAsset`, `LineAsset`, `TextAsset`).  Each carries
exactly the geometric data the collision/extents code reads from it. -/
inductive Asset where
  | image (width height : ℝ)
  | rectangle (width height : ℝ)
  | circle (radius : ℝ)
  | ellipse (halfw halfh : ℝ)
  | polygon (path : List (ℝ × ℝ))
  | line (deltaX deltaY : ℝ)
  | text (width height : ℝ)

/-- `type(asset) is CircleAsset`, the run-time type test the source uses
in `Sprite._setExtents` and `Sprite.collidingWith`. -/
def Asset.isCircle : Asset → Bool
  | .circle _ => true
  | _ => false

noncomputable section

/-- Largest x-coordinate occurring in a polygon path (0 for the empty
path); used only to model the renderer's texture bounding box. -/
def polyMaxX (path : List (ℝ × ℝ)) : ℝ :=
  path.foldl (fun m p => max m p.1) 0

/-- Largest y-coordinate occurring in a polygon path (0 for the empty
path); used only to model the renderer's texture bounding box. -/
def polyMaxY (path : List (ℝ × ℝ)) : ℝ :=
  path.foldl (fun m p => max m p.2) 0

/-- Modelled from the renderer collaborator (out of scope of the core,
§6 of the spec): the intrinsic (unscaled) texture size the display
object reports for each asset.  A circle of radius `r` renders into a
`2r × 2r` bounding square, an ellipse into `2·halfw × 2·halfh`, and the
other assets into their own width/height. -/
def textureSize : Asset → ℝ × ℝ
  | .image w h => (w, h)
  | .rectangle w h => (w, h)
  | .circle r => (2 * r, 2 * r)
  | .ellipse hw hh => (2 * hw, 2 * hh)
  | .polygon path => (polyMaxX path, polyMaxY path)
  | .line dx dy => (|dx|, |dy|)
  | .text w h => (w, h)

/-- State of a `ggame.Sprite` together with the mutable fields of its
underlying display object (`GFX`): position, per-axis scale, rotation
(stored as the display object's rotation, which the source sets to the
*negated* sprite rotation), anchor, the intrinsic texture size, plus the
sprite's own cached extents `xmin/xmax/ymin/ymax` and the
`_extentsdirty` flag.  `id` models Python object identity (`self is
obj`); the registry hands out distinct ids to distinct objects. -/
structure Sprite where
  id : ℕ
  asset : Asset
  edgedef : Asset
  texW : ℝ
  texH : ℝ
  posX : ℝ
  posY : ℝ
  scaleX : ℝ
  scaleY : ℝ
  gfxRotation : ℝ
  anchorX : ℝ
  anchorY : ℝ
  xmin : ℝ
  xmax : ℝ
  ymin : ℝ
  ymax : ℝ
  extentsdirty : Bool

/-- `Sprite.width` property: the display object's width, which the
renderer derives from the texture width and the x-scale. -/
def Sprite.width (s : Sprite) : ℝ := s.texW * s.scaleX

/-- `Sprite.height` property. -/
def Sprite.height (s : Sprite) : ℝ := s.texH * s.scaleY

/-- `Sprite.rotation` getter: `return -self.GFX.rotation`. -/
def Sprite.rotation (s : Sprite) : ℝ := -s.gfxRotation

/-- `Sprite.scale` getter: `return self.GFX.scale.x`. -/
def Sprite.scale (s : Sprite) : ℝ := s.scaleX

/-- `Sprite.x` setter: shifts the cached x-extents by the delta and
moves the display object; does not touch `_extentsdirty`. -/
def Sprite.setX (v : ℝ) (s : Sprite) : Sprite :=
  { s with xmin := s.xmin + (v - s.posX), xmax := s.xmax + (v - s.posX), posX := v }

/-- `Sprite.y` setter: shifts the cached y-extents by the delta and
moves the display object; does not touch `_extentsdirty`. -/
def Sprite.setY (v : ℝ) (s : Sprite) : Sprite :=
  { s with ymin := s.ymin + (v - s.posY), ymax := s.ymax + (v - s.posY), posY := v }

/-- `Sprite.position` setter: `self.x, self.y = value`. -/
def Sprite.setPosition (p : ℝ × ℝ) (s : Sprite) : Sprite :=
  (s.setX p.1).setY p.2

/-- `Sprite.scale` setter: sets both display scale components and marks
the extents dirty. -/
def Sprite.setScale (v : ℝ) (s : Sprite) : Sprite :=
  { s with scaleX := v, scaleY := v, extentsdirty := true }

/-- `Sprite.rotation` setter: `self.GFX.rotation = -value; if value:
self._extentsdirty = True`.  Python float truthiness means the dirty
flag is set only for a nonzero assigned value. -/
def Sprite.setRotation (v : ℝ) (s : Sprite) : Sprite :=
  let s' := { s with gfxRotation := -v }
  if v = 0 then s' else { s' with extentsdirty := true }

/-- `Sprite.fxcenter` setter. -/
def Sprite.setFxcenter (v : ℝ) (s : Sprite) : Sprite :=
  { s with anchorX := v, extentsdirty := true }

/-- `Sprite.fycenter` setter. -/
def Sprite.setFycenter (v : ℝ) (s : Sprite) : Sprite :=
  { s with anchorY := v, extentsdirty := true }

/-- `Sprite.center` setter: sets both anchor components and marks the
extents dirty. -/
def Sprite.setCenter (p : ℝ × ℝ) (s : Sprite) : Sprite :=
  { s with anchorX := p.1, anchorY := p.2, extentsdirty := true }

/-- `Sprite.width` setter: the renderer realizes an assigned width by
adjusting the x-scale (`width = texW * scaleX`); the source then marks
the extents dirty. -/
def Sprite.setWidth (v : ℝ) (s : Sprite) : Sprite :=
  { s with scaleX := v / s.texW, extentsdirty := true }

/-- `Sprite.height` setter, analogous to the width setter. -/
def Sprite.setHeight (v : ℝ) (s : Sprite) : Sprite :=
  { s with scaleY := v / s.texH, extentsdirty := true }

/-- `Sprite._createBaseVertices`: sprite-relative outline vertices
derived from the *edge-definition* asset.  A `CircleAsset` edge
definition sets no vertices at all (the empty list). -/
def baseVertices : Asset → List (ℝ × ℝ)
  | .rectangle w h => [(0, 0), (0, h), (w, h), (w, 0)]
  | .image w h => [(0, 0), (0, h), (w, h), (w, 0)]
  | .text w h => [(0, 0), (0, h), (w, h), (w, 0)]
  | .polygon path => path.dropLast
  | .line dx dy => [(0, 0), (dx, dy)]
  | .ellipse hw hh => [(0, 0), (0, 2 * hh), (2 * hw, 2 * hh), (2 * hw, 0)]
  | .circle _ => []

/-- `Sprite._xformVertices`: anchor-shift, scale (with the exact
fast path when `scale == 1.0`), rotate with the downward-positive-y
convention, then translate by the sprite position. -/
def Sprite.xformVertices (s : Sprite) : List (ℝ × ℝ) :=
  let x := s.width * s.anchorX / s.scale
  let y := s.height * s.anchorY / s.scale
  let crsc :=
    if s.scale ≠ 1 then
      (baseVertices s.edgedef).map (fun p => ((p.1 - x) * s.scale, (p.2 - y) * s.scale))
    else
      (baseVertices s.edgedef).map (fun p => (p.1 - x, p.2 - y))
  let c := Real.cos s.rotation
  let sn := Real.sin s.rotation
  crsc.map (fun p => (s.posX + p.1 * c + p.2 * sn, s.posY + -p.1 * sn + p.2 * c))

/-- Python `int()` applied to a float: truncation toward zero. -/
def pyInt (x : ℝ) : ℤ :=
  if 0 ≤ x then ⌊x⌋ else ⌈x⌉

/-- `math.atan2 y x` with the usual quadrant conventions
(`atan2 0 0 = 0`, as in Python). -/
def atan2 (y x : ℝ) : ℝ :=
  if 0 < x then Real.arctan (y / x)
  else if x < 0 ∧ 0 ≤ y then Real.arctan (y / x) + Real.pi
  else if x < 0 ∧ y < 0 then Real.arctan (y / x) - Real.pi
  else if x = 0 ∧ 0 < y then Real.pi / 2
  else if x = 0 ∧ y < 0 then -(Real.pi / 2)
  else 0

/-- `Sprite._setExtents`: when the dirty flag is set, recompute the
cached bounding box — through the closed-form circle formula when the
*display* asset is a `CircleAsset`, and through min/max over the
transformed edge vertices otherwise — and clear the flag.  The source
raises (`zip` of an empty vertex list) when a non-circle display asset
is combined with a circle edge definition; no claim below depends on
that unreachable-through-the-documented-API case, and the model then
just clears the flag. -/
def Sprite.setExtents (s : Sprite) : Sprite :=
  if s.extentsdirty then
    if s.asset.isCircle then
      let th := atan2 (s.anchorY - 0.5) (0.5 - s.anchorX) + s.rotation
      let D := s.width
      let L := Real.sqrt ((s.anchorX - 0.5) ^ 2 + (s.anchorY - 0.5) ^ 2) * D
      let xm := s.posX + (pyInt (L * Real.cos th) : ℝ) - ((⌊D / 2⌋ : ℤ) : ℝ)
      let ym := s.posY - (pyInt (L * Real.sin th) : ℝ) - ((⌊D / 2⌋ : ℤ) : ℝ)
      { s with xmin := xm, ymin := ym, xmax := xm + D, ymax := ym + D,
               extentsdirty := false }
    else
      match s.xformVertices with
      | [] => { s with extentsdirty := false }
      | v :: vs =>
        { s with xmin := (vs.map Prod.fst).foldl min v.1,
                 xmax := (vs.map Prod.fst).foldl max v.1,
                 ymin := (vs.map Prod.snd).foldl min v.2,
                 ymax := (vs.map Prod.snd).foldl max v.2,
                 extentsdirty := false }
  else s

/-- `Sprite.collidingCircleWithPoly`: the source's narrow-phase stub,
which unconditionally reports a collision. -/
def collidingCircleWithPoly (_circ _poly : Sprite) : Bool := true

/-- `Sprite.collidingPolyWithPoly`: the source's narrow-phase stub,
which unconditionally reports a collision. -/
def collidingPolyWithPoly (_a _b : Sprite) : Bool := true

/-- The three narrow-phase tests `collidingWith` can dispatch to. -/
inductive NarrowKind where
  | circCirc
  | circPoly
  | polyPoly
deriving DecidableEq

/-- `Sprite.collidingWith`, instrumented: returns the boolean result of
the source routine together with the list of narrow-phase tests it ran
(empty when the identity test or the broad bounding-box check short
circuits, a singleton otherwise).  The branch structure mirrors the
source line by line: identity test, extents refresh, broad check, then
dispatch on `type(self.asset)` / `type(obj.asset)`. -/
def Sprite.collidingWithTrace (a b : Sprite) : Bool × List NarrowKind :=
  if a.id = b.id then (false, [])
  else
    let a' := a.setExtents
    let b' := b.setExtents
    if a'.xmin > b'.xmax ∨ a'.xmax < b'.xmin ∨ a'.ymin > b'.ymax ∨ a'.ymax < b'.ymin then
      (false, [])
    else if a.asset.isCircle then
      if b.asset.isCircle then
        let sx := (a'.xmin + a'.xmax) / 2
        let sy := (a'.ymin + a'.ymax) / 2
        let ox := (b'.xmin + b'.xmax) / 2
        let oy := (b'.ymin + b'.ymax) / 2
        let d := Real.sqrt ((sx - ox) ^ 2 + (sy - oy) ^ 2)
        (if d ≤ a'.width / 2 + b'.width / 2 then true else false, [NarrowKind.circCirc])
      else
        (collidingCircleWithPoly a' b', [NarrowKind.circPoly])
    else if b.asset.isCircle then
      (collidingCircleWithPoly b' a', [NarrowKind.circPoly])
    else
      (collidingPolyWithPoly a' b', [NarrowKind.polyPoly])

/-- `Sprite.collidingWith`: the boolean the source returns. -/
def Sprite.collidingWith (a b : Sprite) : Bool :=
  (a.collidingWithTrace b).1

/-- Modelled from the spec: the narrow-phase selection rule the spec
states — dispatch on the pair of *edge-definition* shape kinds
(circle/circle, exactly-one-circle, neither) — written down to be
compared against the source's dispatch in `collidingWithTrace`. -/
def specNarrowSelect (a b : Sprite) : NarrowKind :=
  if a.edgedef.isCircle then
    if b.edgedef.isCircle then NarrowKind.circCirc else NarrowKind.circPoly
  else if b.edgedef.isCircle then NarrowKind.circPoly
  else NarrowKind.polyPoly

/-- `Sprite.__init__`: record the asset, default the edge definition to
the display asset when none is supplied, zero the cached extents, apply
the position setter, mark the extents dirty and compute them.  The
display object starts with scale 1, rotation 0 and anchor (0,0). -/
def mkSprite (asset : Asset) (pos : ℝ × ℝ) (edgedef : Option Asset) (id : ℕ) : Sprite :=
  let tex := textureSize asset
  let s0 : Sprite :=
    { id := id, asset := asset, edgedef := edgedef.getD asset,
      texW := tex.1, texH := tex.2,
      posX := 0, posY := 0, scaleX := 1, scaleY := 1, gfxRotation := 0,
      anchorX := 0, anchorY := 0,
      xmin := 0, xmax := 0, ymin := 0, ymax := 0, extentsdirty := true }
  Sprite.setExtents { s0.setPosition pos with extentsdirty := true }

/-- A circle sprite whose *center* is at `(cx, cy)`: with the default
top-left anchor the circle's center sits at position + (r, r), so the
sprite is constructed at position `(cx - r, cy - r)`. -/
def mkCircleCentered (id : ℕ) (r : ℕ) (cx cy : ℝ) : Sprite :=
  mkSprite (Asset.circle r) (cx - r, cy - r) none id

end

/-- A registered sprite as the registry sees it: Python object identity
(`id`) plus its concrete Python class (`kind`, modelling `type(obj)`),
which keys the per-class buckets. -/
structure SpriteRef where
  id : ℕ
  kind : ℕ
deriving DecidableEq, BEq

/-- An event callback: an identity plus whether invoking it sets
`consumed = True` on the event it receives. -/
structure Callback where
  id : ℕ
  consumes : Bool
deriving DecidableEq

/-- The key under which `App._keyEvent` looks an event up in
`App._eventdict`: the symbolic key name string when `KeyEvent.keys`
maps the key code, and the integer default `0` (`keys.get(code, 0)`)
otherwise — an integer key that no string-keyed registration made
through `listenKeyEvent` can collide with. -/
inductive EvtKeyId where
  | name (s : String)
  | zero
deriving DecidableEq

/-- Keys of `App._eventdict` for keyboard events: (event type, key). -/
abbrev EvtKey := String × EvtKeyId

/-- `App._eventdict.get(k, [])` over the insertion-ordered dict,
modelled as an association list with unique keys. -/
def dictGet : List (EvtKey × List Callback) → EvtKey → List Callback
  | [], _ => []
  | (k', v) :: rest, k => if k = k' then v else dictGet rest k

/-- `KeyEvent.keys`: the source's key-code table, in full. -/
def keyTable : List (ℕ × String) :=
  [(8, "backspace"), (9, "tab"), (13, "enter"), (16, "shift"), (17, "ctrl"),
   (18, "alt"), (19, "pause/break"), (20, "caps lock"), (27, "escape"),
   (32, "space"), (33, "page up"), (34, "page down"), (35, "end"), (36, "home"),
   (37, "left arrow"), (38, "up arrow"), (39, "right arrow"), (40, "down arrow"),
   (45, "insert"), (46, "delete"),
   (48, "0"), (49, "1"), (50, "2"), (51, "3"), (52, "4"), (53, "5"), (54, "6"),
   (55, "7"), (56, "8"), (57, "9"),
   (65, "a"), (66, "b"), (67, "c"), (68, "d"), (69, "e"), (70, "f"), (71, "g"),
   (72, "h"), (73, "i"), (74, "j"), (75, "k"), (76, "l"), (77, "m"), (78, "n"),
   (79, "o"), (80, "p"), (81, "q"), (82, "r"), (83, "s"), (84, "t"), (85, "u"),
   (86, "v"), (87, "w"), (88, "x"), (89, "y"), (90, "z"),
   (91, "left window key"), (92, "right window key"), (93, "select key"),
   (96, "numpad 0"), (97, "numpad 1"), (98, "numpad 2"), (99, "numpad 3"),
   (100, "numpad 4"), (101, "numpad 5"), (102, "numpad 6"), (103, "numpad 7"),
   (104, "numpad 8"), (105, "numpad 9"),
   (106, "multiply"), (107, "add"), (109, "subtract"), (110, "decimal point"),
   (111, "divide"),
   (112, "f1"), (113, "f2"), (114, "f3"), (115, "f4"), (116, "f5"), (117, "f6"),
   (118, "f7"), (119, "f8"), (120, "f9"), (121, "f10"), (122, "f11"), (123, "f12"),
   (144, "num lock"), (145, "scroll lock"), (186, "semicolon"), (187, "equal sign"),
   (188, "comma"), (189, "dash"), (190, "period"), (191, "forward slash"),
   (192, "grave accent"), (219, "open bracket"), (220, "back slash"),
   (221, "close bracket"), (222, "single quote")]

/-- `KeyEvent.keys.get(code)`: the symbolic name for a key code, when
the table maps it. -/
def keyName (code : ℕ) : Option String :=
  (keyTable.find? (fun p => p.1 == code)).map Prod.snd

/-- A raw keyboard notification as delivered by the browser: the event
type string and the numeric key code. -/
structure HWKeyEvent where
  etype : String
  keyCode : ℕ

/-- `App._routeEvent`'s loop body over an *already reversed* callback
list: each callback is invoked only while the event is not consumed,
and an invoked callback with `consumes = true` sets the consumed flag.
Returns the callback ids actually invoked, in invocation order. -/
def routeEventRev : List Callback → Bool → List ℕ
  | [], _ => []
  | cb :: rest, consumed =>
    if consumed then routeEventRev rest consumed
    else cb.id :: routeEventRev rest (consumed || cb.consumes)

/-- The `_eventdict` lookup key `_keyEvent` derives from a raw key
code: `KeyEvent.keys.get(hwevent.keyCode, 0)`. -/
def keyEventLookupKey (code : ℕ) : EvtKeyId :=
  match keyName code with
  | some s => EvtKeyId.name s
  | none => EvtKeyId.zero

/-- `App._keyEvent`: build the dispatch snapshot (specific-key
callbacks followed by wildcard callbacks), and when it is nonempty
construct the typed `KeyEvent` — whose constructor evaluates
`self.keys[hwevent.keyCode]` and hence raises `KeyError` for an
unmapped key code, before any callback runs — then walk the snapshot in
reverse with consumption short-circuiting.  Returns the invoked
callback ids, or an error when the `KeyEvent` constructor raises. -/
def keyEventDispatch (d : List (EvtKey × List Callback)) (hw : HWKeyEvent) :
    Except Unit (List ℕ) :=
  let evtlist :=
    dictGet d (hw.etype, keyEventLookupKey hw.keyCode) ++ dictGet d (hw.etype, EvtKeyId.name "*")
  if evtlist.length > 0 then
    match keyName hw.keyCode with
    | none => Except.error ()
    | some _ => Except.ok (routeEventRev evtlist.reverse false)
  else Except.ok []

/-- The class-level registry state of `App`: the global sprite list,
the per-class buckets (`_spritesdict`), the event-subscription tables
(`_eventdict`), the `_spritesadded` latch and whether a window object
exists (`_win is not None`). -/
structure AppState where
  spritelist : List SpriteRef
  spritesdict : List (ℕ × List SpriteRef)
  eventdict : List (EvtKey × List Callback)
  spritesadded : Bool
  winOpen : Bool

/-- The registry state at module load: everything empty, no window. -/
def initialAppState : AppState :=
  { spritelist := [], spritesdict := [], eventdict := [],
    spritesadded := false, winOpen := false }

/-- Append a sprite to its per-class bucket, creating the bucket first
when the class has no bucket yet (`if type(obj) not in App._spritesdict:
App._spritesdict[type(obj)] = []` followed by `append`). -/
def bucketAppend : List (ℕ × List SpriteRef) → ℕ → SpriteRef → List (ℕ × List SpriteRef)
  | [], k, r => [(k, [r])]
  | (k', v) :: rest, k, r =>
    if k = k' then (k', v ++ [r]) :: rest else (k', v) :: bucketAppend rest k r

/-- `App._add`: append the sprite to the global list and to its
per-class bucket. -/
def appAdd (obj : SpriteRef) (st : AppState) : AppState :=
  { st with spritelist := st.spritelist ++ [obj],
            spritesdict := bucketAppend st.spritesdict obj.kind obj }

/-- Remove a sprite from its per-class bucket
(`App._spritesdict[type(obj)].remove(obj)`: removes the first
occurrence from that bucket). -/
def bucketErase (d : List (ℕ × List SpriteRef)) (k : ℕ) (r : SpriteRef) :
    List (ℕ × List SpriteRef) :=
  d.map (fun kv => if kv.1 = k then (kv.1, kv.2.erase r) else kv)

/-- `App._remove`: remove the sprite from the global list and from its
per-class bucket. -/
def appRemove (obj : SpriteRef) (st : AppState) : AppState :=
  { st with spritelist := st.spritelist.erase obj,
            spritesdict := bucketErase st.spritesdict obj.kind obj }

/-- `App._destroy`: drop the window, destroy every live sprite (each
`Sprite.destroy` calls `App._remove`, iterating over a snapshot
`list(App.spritelist)`), then reset the sprite list, the per-class
buckets, the event tables and the `_spritesadded` latch to their
initial empty values. -/
def appDestroy (st : AppState) : AppState :=
  let st' := st.spritelist.foldl (fun acc s => appRemove s acc) st
  { st' with winOpen := false, spritelist := [], spritesdict := [],
             eventdict := [], spritesadded := false }

noncomputable section

/-- Concrete input for the narrow-phase dispatch check: a sprite whose
display asset is a circle of radius 10 but whose edge definition is a
(non-circle) polygon. -/
def c1A : Sprite :=
  mkSprite (Asset.circle 10) (0, 0)
    (some (Asset.polygon [(0, 0), (20, 0), (20, 20), (0, 0)])) 0

/-- Concrete input for the narrow-phase dispatch check: a 20×20
rectangle sprite overlapping `c1A`, edge definition defaulted. -/
def c1B : Sprite :=
  mkSprite (Asset.rectangle 20 20) (0, 0) none 1

/-- The 100×100 rectangle sprite of the anchor claim: constructed at
(10,10), anchor then set to (0.5, 0.5), extents recomputed. -/
def c3sprite : Sprite :=
  Sprite.setExtents
    (Sprite.setCenter (0.5, 0.5) (mkSprite (Asset.rectangle 100 100) (10, 10) none 0))

/-- A concrete sprite state with clean (non-dirty) extents, used to
exhibit the behavior of the rotation setter at value 0. -/
def c4clean : Sprite :=
  { id := 0, asset := Asset.rectangle 10 10, edgedef := Asset.rectangle 10 10,
    texW := 10, texH := 10, posX := 0, posY := 0, scaleX := 1, scaleY := 1,
    gfxRotation := 1, anchorX := 0, anchorY := 0,
    xmin := 0, xmax := 10, ymin := 0, ymax := 10, extentsdirty := false }

/-- A clean 10×10 rectangle sprite at the origin, bounding box
[0,10]×[0,10]. -/
def c6a : Sprite :=
  { id := 0, asset := Asset.rectangle 10 10, edgedef := Asset.rectangle 10 10,
    texW := 10, texH := 10, posX := 0, posY := 0, scaleX := 1, scaleY := 1,
    gfxRotation := 0, anchorX := 0, anchorY := 0,
    xmin := 0, xmax := 10, ymin := 0, ymax := 10, extentsdirty := false }

/-- A clean 10×10 rectangle sprite at (100,100), bounding box
[100,110]×[100,110], disjoint from `c6a`. -/
def c6b : Sprite :=
  { id := 1, asset := Asset.rectangle 10 10, edgedef := Asset.rectangle 10 10,
    texW := 10, texH := 10, posX := 100, posY := 100, scaleX := 1, scaleY := 1,
    gfxRotation := 0, anchorX := 0, anchorY := 0,
    xmin := 100, xmax := 110, ymin := 100, ymax := 110, extentsdirty := false }

end

/-- Subscription table for the dispatch-order scenario: callback 1
(which consumes every event it receives) subscribed for `keydown` of
key `a`, callback 2 (which does not consume) subscribed for `keydown`
of the wildcard key. -/
def c2dict : List (EvtKey × List Callback) :=
  [(("keydown", EvtKeyId.name "a"), [⟨1, true⟩]),
   (("keydown", EvtKeyId.name "*"), [⟨2, false⟩])]

/-- A raw `keydown` notification for key code 65 (key `a`). -/
def c2hw : HWKeyEvent := ⟨"keydown", 65⟩

/-- Subscription table with a single wildcard `keydown` subscriber. -/
def c10dict : List (EvtKey × List Callback) :=
  [(("keydown", EvtKeyId.name "*"), [⟨0, false⟩])]

/-- `_setExtents` is the identity on a sprite whose extents are
clean. -/
theorem setExtents_clean (s : Sprite) (h : s.extentsdirty = false) :
    s.setExtents = s := by
  unfold Sprite.setExtents
  rw [h]
  simp

/-- Python `int()` is the identity on (casts of) integers. -/
theorem pyInt_intCast (n : ℤ) : pyInt (n : ℝ) = n := by
  unfold pyInt
  by_cases h : (0 : ℝ) ≤ (n : ℝ)
  · rw [if_pos h, Int.floor_intCast]
  · rw [if_neg h, Int.ceil_intCast]

theorem sqrt_one_half : Real.sqrt (1 / 2) = Real.sqrt 2 / 2 := by
  have h : (1 / 2 : ℝ) = (Real.sqrt 2 / 2) ^ 2 := by
    rw [div_pow, Real.sq_sqrt (by norm_num : (0 : ℝ) ≤ 2)]
    norm_num
  rw [h, Real.sqrt_sq (by positivity)]

/-- The anchor angle of the closed-form circle formula at the default
(top-left) anchor. -/
theorem atan2_anchor_origin : atan2 ((0 : ℝ) - 0.5) (0.5 - 0) = -(Real.pi / 4) := by
  unfold atan2
  rw [if_pos (by norm_num : (0 : ℝ) < 0.5 - 0)]
  have h : ((0 : ℝ) - 0.5) / (0.5 - 0) = -1 := by norm_num
  rw [h]
  rw [show (-1 : ℝ) = -(1 : ℝ) by norm_num, Real.arctan_neg, Real.arctan_one]

/-- Closed-form circle extents at the default anchor, no rotation,
diameter `2r`: the bounding box is position to position + diameter. -/
theorem setExtents_circle (s : Sprite) (r : ℕ)
    (ha : s.asset.isCircle = true) (hax : s.anchorX = 0) (hay : s.anchorY = 0)
    (hrot : s.gfxRotation = 0) (hdirty : s.extentsdirty = true)
    (hw : s.width = 2 * (r : ℝ)) :
    s.setExtents =
      { s with xmin := s.posX, ymin := s.posY,
               xmax := s.posX + 2 * (r : ℝ), ymax := s.posY + 2 * (r : ℝ),
               extentsdirty := false } := by
  have h2 : Real.sqrt 2 * Real.sqrt 2 = 2 := Real.mul_self_sqrt (by norm_num)
  have hsum : ((0 : ℝ) - 0.5) ^ 2 + ((0 : ℝ) - 0.5) ^ 2 = 1 / 2 := by norm_num
  have hcos : Real.sqrt 2 / 2 * (2 * (r : ℝ)) * (Real.sqrt 2 / 2) = ((r : ℤ) : ℝ) := by
    push_cast
    linear_combination ((r : ℝ) / 2) * h2
  have hsin : Real.sqrt 2 / 2 * (2 * (r : ℝ)) * -(Real.sqrt 2 / 2) = ((-(r : ℤ) : ℤ) : ℝ) := by
    push_cast
    linear_combination (-(r : ℝ) / 2) * h2
  have hfloor : ⌊(2 * (r : ℝ)) / 2⌋ = (r : ℤ) := by
    rw [show (2 * (r : ℝ)) / 2 = ((r : ℤ) : ℝ) by push_cast; ring, Int.floor_intCast]
  unfold Sprite.setExtents
  rw [hdirty, ha]
  simp only [eq_self_iff_true, if_true, Sprite.rotation, hrot, hax, hay, neg_zero, add_zero,
    atan2_anchor_origin, Real.cos_neg, Real.sin_neg, Real.cos_pi_div_four,
    Real.sin_pi_div_four, hsum, sqrt_one_half, hw, hcos, hsin, hfloor,
    pyInt_intCast]
  congr 1 <;> push_cast <;> ring

/-- Normal form of a circle sprite constructed so that its center is
`(cx, cy)`. -/
theorem mkCircleCentered_eval (id r : ℕ) (cx cy : ℝ) :
    mkCircleCentered id r cx cy =
      { id := id, asset := Asset.circle r, edgedef := Asset.circle r,
        texW := 2 * (r : ℝ), texH := 2 * (r : ℝ),
        posX := cx - r, posY := cy - r,
        scaleX := 1, scaleY := 1, gfxRotation := 0, anchorX := 0, anchorY := 0,
        xmin := cx - r, xmax := cx + r, ymin := cy - r, ymax := cy + r,
        extentsdirty := false } := by
  unfold mkCircleCentered mkSprite
  simp only [textureSize, Option.getD_none, Sprite.setPosition, Sprite.setX, Sprite.setY]
  refine (setExtents_circle _ r ?_ ?_ ?_ ?_ ?_ ?_).trans ?_
  · rfl
  · rfl
  · rfl
  · rfl
  · rfl
  · simp [Sprite.width]
  · congr 1 <;> push_cast <;> ring

/-- C5: two distinct circle-asset sprites with up-to-date extents,
centers at (0,0) and (d,0), radii r1 and r2, scale 1 and the default
anchor, collide under `collidingWith` exactly when `d ≤ r1 + r2`. -/
theorem C5_circle_collision_iff (r1 r2 : ℕ) (d : ℝ)
    (h1 : 0 < r1) (h2 : 0 < r2) (hd : 0 ≤ d) :
    (mkCircleCentered 0 r1 0 0).collidingWith (mkCircleCentered 1 r2 d 0) = true ↔
      d ≤ (r1 : ℝ) + (r2 : ℝ) := by
  have hA := mkCircleCentered_eval 0 r1 0 0
  have hB := mkCircleCentered_eval 1 r2 d 0
  have hA' : (mkCircleCentered 0 r1 0 0).setExtents = mkCircleCentered 0 r1 0 0 := by
    rw [hA]; exact setExtents_clean _ rfl
  have hB' : (mkCircleCentered 1 r2 d 0).setExtents = mkCircleCentered 1 r2 d 0 := by
    rw [hB]; exact setExtents_clean _ rfl
  have hr1 : (0 : ℝ) ≤ (r1 : ℝ) := Nat.cast_nonneg r1
  have hr2 : (0 : ℝ) ≤ (r2 : ℝ) := Nat.cast_nonneg r2
  unfold Sprite.collidingWith Sprite.collidingWithTrace
  rw [hA', hB', hA, hB]
  dsimp only [Asset.isCircle, Sprite.width]
  norm_num
  rw [Real.sqrt_sq hd]
  by_cases hc : d ≤ (r1 : ℝ) + (r2 : ℝ)
  · rw [if_neg]
    · simp [hc]
    · push_neg
      refine ⟨by linarith, by linarith, by linarith, by linarith⟩
  · rw [if_pos]
    · simpa using hc
    · exact Or.inr (Or.inl (by linarith))

/-- Witness for C5: a radius-75 circle centered at the origin collides
with a radius-55 circle centered at (55,0) and does not collide with it
centered at (200,0). -/
theorem C5_circle_collision_iff_witness :
    0 < 75 ∧ 0 < 55 ∧ (0 : ℝ) ≤ 55 ∧ (0 : ℝ) ≤ 200 ∧
    (mkCircleCentered 0 75 0 0).collidingWith (mkCircleCentered 1 55 55 0) = true ∧
    (mkCircleCentered 0 75 0 0).collidingWith (mkCircleCentered 1 55 200 0) ≠ true := by
  refine ⟨by norm_num, by norm_num, by norm_num, by norm_num, ?_, ?_⟩
  · exact (C5_circle_collision_iff 75 55 55 (by norm_num) (by norm_num)
      (by norm_num)).mpr (by norm_num)
  · intro hcol
    have h := (C5_circle_collision_iff 75 55 200 (by norm_num) (by norm_num)
      (by norm_num)).mp hcol
    norm_num at h

/-- C9: a sprite never collides with itself, whatever its shape,
transform or extents state. -/
theorem C9_no_self_collision (a : Sprite) : a.collidingWith a = false := by
  unfold Sprite.collidingWith Sprite.collidingWithTrace
  simp

/-- C7: translating a sprite by (dx, dy) through the position setter
shifts the four cached extents by exactly (dx, dx, dy, dy), leaves the
extents-dirty flag untouched, and changes no other sprite field. -/
theorem C7_translation_shifts_extents (s : Sprite) (dx dy : ℝ) :
    (s.setPosition (s.posX + dx, s.posY + dy)).xmin = s.xmin + dx ∧
    (s.setPosition (s.posX + dx, s.posY + dy)).xmax = s.xmax + dx ∧
    (s.setPosition (s.posX + dx, s.posY + dy)).ymin = s.ymin + dy ∧
    (s.setPosition (s.posX + dx, s.posY + dy)).ymax = s.ymax + dy ∧
    (s.setPosition (s.posX + dx, s.posY + dy)).posX = s.posX + dx ∧
    (s.setPosition (s.posX + dx, s.posY + dy)).posY = s.posY + dy ∧
    (s.setPosition (s.posX + dx, s.posY + dy)).extentsdirty = s.extentsdirty ∧
    (s.setPosition (s.posX + dx, s.posY + dy)).scaleX = s.scaleX ∧
    (s.setPosition (s.posX + dx, s.posY + dy)).scaleY = s.scaleY ∧
    (s.setPosition (s.posX + dx, s.posY + dy)).gfxRotation = s.gfxRotation ∧
    (s.setPosition (s.posX + dx, s.posY + dy)).anchorX = s.anchorX ∧
    (s.setPosition (s.posX + dx, s.posY + dy)).anchorY = s.anchorY ∧
    (s.setPosition (s.posX + dx, s.posY + dy)).texW = s.texW ∧
    (s.setPosition (s.posX + dx, s.posY + dy)).texH = s.texH ∧
    (s.setPosition (s.posX + dx, s.posY + dy)).asset = s.asset ∧
    (s.setPosition (s.posX + dx, s.posY + dy)).edgedef = s.edgedef := by
  unfold Sprite.setPosition Sprite.setX Sprite.setY
  refine ⟨by ring, by ring, by ring, by ring, rfl, rfl, rfl, rfl, rfl, rfl, rfl, rfl,
    rfl, rfl, rfl, rfl⟩

/-- C8: the registry reset (`App._destroy`) empties the global sprite
list, the per-class buckets and the event-subscription tables,
regardless of the prior state, returning the registry to its initial
state, so that a subsequent registration behaves exactly as from the
initial state. -/
theorem C8_destroy_resets_registry (st : AppState) (obj : SpriteRef) :
    (appDestroy st).spritelist = [] ∧ (appDestroy st).spritesdict = [] ∧
    (appDestroy st).eventdict = [] ∧ appDestroy st = initialAppState ∧
    appAdd obj (appDestroy st) = appAdd obj initialAppState :=
  ⟨rfl, rfl, rfl, rfl, rfl⟩

/-- Counterexample for C4 as stated: assigning `rotation = 0.0` to a
sprite with clean extents leaves the extents-dirty flag false — the
rotation setter only sets the flag for a truthy (nonzero) value. -/
theorem C4_rotation_zero_keeps_clean :
    (c4clean.setRotation 0).extentsdirty = false := by
  unfold Sprite.setRotation
  rw [if_pos rfl]
  rfl

/-- C4 as amended: the scale, size (width/height) and anchor
(fxcenter/fycenter/center) setters set the extents-dirty flag for every
assigned value; the rotation setter sets it exactly for nonzero values
and leaves it unchanged when the assigned value is 0.0. -/
theorem C4_mutators_dirty (s : Sprite) (v : ℝ) (p : ℝ × ℝ) :
    (s.setScale v).extentsdirty = true ∧
    (s.setWidth v).extentsdirty = true ∧
    (s.setHeight v).extentsdirty = true ∧
    (s.setFxcenter v).extentsdirty = true ∧
    (s.setFycenter v).extentsdirty = true ∧
    (s.setCenter p).extentsdirty = true ∧
    (v ≠ 0 → (s.setRotation v).extentsdirty = true) ∧
    (s.setRotation 0).extentsdirty = s.extentsdirty := by
  refine ⟨rfl, rfl, rfl, rfl, rfl, rfl, ?_, ?_⟩
  · intro hv
    unfold Sprite.setRotation
    rw [if_neg hv]
  · unfold Sprite.setRotation
    rw [if_pos rfl]

/-- Witness for the amended C4: at the concrete sprite `c4clean` and
the nonzero rotation value 1, the rotation setter does set the dirty
flag. -/
theorem C4_mutators_dirty_witness :
    (1 : ℝ) ≠ 0 ∧ (c4clean.setRotation 1).extentsdirty = true :=
  ⟨by norm_num, (C4_mutators_dirty c4clean 1 (0, 0)).2.2.2.2.2.2.1 (by norm_num)⟩

/-- C6: for distinct sprites whose refreshed bounding boxes are
disjoint, `collidingWith` returns false with an empty narrow-phase
trace: no narrow-phase test is ever invoked. -/
theorem C6_broad_phase_short_circuit (a b : Sprite) (hid : a.id ≠ b.id)
    (hsep : a.setExtents.xmin > b.setExtents.xmax ∨
            a.setExtents.xmax < b.setExtents.xmin ∨
            a.setExtents.ymin > b.setExtents.ymax ∨
            a.setExtents.ymax < b.setExtents.ymin) :
    a.collidingWithTrace b = (false, []) ∧ a.collidingWith b = false := by
  have h : a.collidingWithTrace b = (false, []) := by
    unfold Sprite.collidingWithTrace
    dsimp only
    rw [if_neg hid, if_pos hsep]
  exact ⟨h, by unfold Sprite.collidingWith; rw [h]⟩

/-- Witness for C6: two clean 10×10 rectangle sprites with bounding
boxes [0,10]² and [100,110]². -/
theorem C6_broad_phase_short_circuit_witness :
    c6a.id ≠ c6b.id ∧
    (c6a.setExtents.xmin > c6b.setExtents.xmax ∨
     c6a.setExtents.xmax < c6b.setExtents.xmin ∨
     c6a.setExtents.ymin > c6b.setExtents.ymax ∨
     c6a.setExtents.ymax < c6b.setExtents.ymin) ∧
    c6a.collidingWithTrace c6b = (false, []) ∧ c6a.collidingWith c6b = false := by
  have hid : c6a.id ≠ c6b.id := by norm_num [c6a, c6b]
  have hsep : c6a.setExtents.xmin > c6b.setExtents.xmax ∨
      c6a.setExtents.xmax < c6b.setExtents.xmin ∨
      c6a.setExtents.ymin > c6b.setExtents.ymax ∨
      c6a.setExtents.ymax < c6b.setExtents.ymin := by
    rw [setExtents_clean c6a rfl, setExtents_clean c6b rfl]
    exact Or.inr (Or.inl (by norm_num [c6a, c6b]))
  exact ⟨hid, hsep, C6_broad_phase_short_circuit c6a c6b hid hsep⟩

/-- Counterexample for C3 as stated: the 100×100 rectangle sprite at
(10,10) with anchor (0.5, 0.5) does *not* keep bounding box
xmin = 10, xmax = 110 after recomputing extents. -/
theorem C3_anchor_claim_counterexample :
    ¬ (c3sprite.xmin = 10 ∧ c3sprite.xmax = 110) := by
  have h : c3sprite.xmin = -40 := by
    norm_num [c3sprite, mkSprite, Sprite.setPosition, Sprite.setX, Sprite.setY,
      Sprite.setCenter, Sprite.setExtents, Sprite.xformVertices, baseVertices,
      Asset.isCircle, textureSize, Option.getD_none, Sprite.width, Sprite.height,
      Sprite.scale, Sprite.rotation, Real.cos_zero, Real.sin_zero, min_def, max_def]
  rintro ⟨h10, -⟩
  rw [h] at h10
  norm_num at h10

/-- C3 as amended: setting the anchor to (0.5, 0.5) on the unrotated,
unscaled 100×100 rectangle at (10,10) and recomputing extents shifts
the bounding box by minus anchor times size, yielding
[-40, 60] × [-40, 60]: the anchor does affect the extents of an
unrotated, unscaled shape, by translating the box so the position
refers to the anchor point. -/
theorem C3_anchor_shifts_extents :
    c3sprite.xmin = -40 ∧ c3sprite.xmax = 60 ∧
    c3sprite.ymin = -40 ∧ c3sprite.ymax = 60 := by
  norm_num [c3sprite, mkSprite, Sprite.setPosition, Sprite.setX, Sprite.setY, Sprite.setCenter,
    Sprite.setExtents, Sprite.xformVertices, baseVertices, Asset.isCircle, textureSize,
    Option.getD_none, Sprite.width, Sprite.height, Sprite.scale, Sprite.rotation,
    Real.cos_zero, Real.sin_zero, min_def, max_def]

/-- Normal form of `c1A`: a radius-10 circle-asset sprite at the
origin with a polygon edge definition; extents [0,20]². -/
theorem c1A_eval :
    c1A = { id := 0, asset := Asset.circle 10,
            edgedef := Asset.polygon [(0, 0), (20, 0), (20, 20), (0, 0)],
            texW := 20, texH := 20, posX := 0, posY := 0, scaleX := 1, scaleY := 1,
            gfxRotation := 0, anchorX := 0, anchorY := 0,
            xmin := 0, xmax := 20, ymin := 0, ymax := 20, extentsdirty := false } := by
  unfold c1A mkSprite
  simp only [textureSize, Option.getD_some, Sprite.setPosition, Sprite.setX, Sprite.setY]
  refine (setExtents_circle _ 10 ?_ ?_ ?_ ?_ ?_ ?_).trans ?_
  · rfl
  · rfl
  · rfl
  · rfl
  · rfl
  · norm_num [Sprite.width]
  · congr 1 <;> norm_num

/-- Normal form of `c1B`: a 20×20 rectangle sprite at the origin,
extents [0,20]². -/
theorem c1B_eval :
    c1B = { id := 1, asset := Asset.rectangle 20 20, edgedef := Asset.rectangle 20 20,
            texW := 20, texH := 20, posX := 0, posY := 0, scaleX := 1, scaleY := 1,
            gfxRotation := 0, anchorX := 0, anchorY := 0,
            xmin := 0, xmax := 20, ymin := 0, ymax := 20, extentsdirty := false } := by
  norm_num [c1B, mkSprite, Sprite.setPosition, Sprite.setX, Sprite.setY, Sprite.setExtents,
    Sprite.xformVertices, baseVertices, Asset.isCircle, textureSize, Option.getD_none,
    Sprite.width, Sprite.height, Sprite.scale, Sprite.rotation, Real.cos_zero, Real.sin_zero,
    min_def, max_def, Sprite.mk.injEq]

/-- C1: the narrow-phase test is selected by the *display asset*
kinds, not the edge-definition kinds: with a circle display asset and a
polygon edge definition against a rectangle sprite, `collidingWith`
runs the circle-vs-polygon test although the edge-definition pair
(polygon, rectangle) selects polygon-vs-polygon under the claimed
rule (`specNarrowSelect`). -/
theorem C1_narrow_dispatch_ignores_edgedef :
    (c1A.collidingWithTrace c1B).2 = [NarrowKind.circPoly] ∧
    specNarrowSelect c1A c1B = NarrowKind.polyPoly := by
  have hA := c1A_eval
  have hB := c1B_eval
  have hA' : c1A.setExtents = c1A := by rw [hA]; exact setExtents_clean _ rfl
  have hB' : c1B.setExtents = c1B := by rw [hB]; exact setExtents_clean _ rfl
  constructor
  · unfold Sprite.collidingWithTrace
    rw [hA', hB', hA, hB]
    norm_num [Asset.isCircle]
  · rw [hA, hB]
    norm_num [specNarrowSelect, Asset.isCircle]

/-- Counterexample for C2 as stated: with callback 1 subscribed for
`keydown` of key `a` (consuming every event) and callback 2 subscribed
for the `keydown` wildcard (not consuming), a `keydown` for key code 65
(`a`) invokes the *wildcard* callback first and then the specific one —
the wildcard subscriber is invoked, contradicting the claim. -/
theorem C2_wildcard_invoked_counterexample :
    keyEventDispatch c2dict c2hw = Except.ok [2, 1] := by
  rfl

/-- C2 as amended: the dispatch snapshot is the specific-key callbacks
followed by the wildcard callbacks, walked in reverse, so the wildcard
callback runs *first*; a specific-key callback that consumes the event
cannot prevent the wildcard callback from running.  With one consuming
specific subscriber and one wildcard subscriber, the invoked sequence is
the wildcard id followed by the specific id (the latter suppressed only
when the wildcard itself consumes). -/
theorem C2_dispatch_order (code : ℕ) (k : String) (sId wId : ℕ) (wc : Bool)
    (hk : keyName code = some k) (hne : k ≠ "*") :
    keyEventDispatch
      [(("keydown", EvtKeyId.name k), [⟨sId, true⟩]),
       (("keydown", EvtKeyId.name "*"), [⟨wId, wc⟩])]
      ⟨"keydown", code⟩ =
      Except.ok (wId :: (if wc then [] else [sId])) := by
  have hne' : EvtKeyId.name "*" ≠ EvtKeyId.name k := by
    intro h
    exact hne (by injection h with h; exact h.symm)
  cases wc <;>
    simp [keyEventDispatch, keyEventLookupKey, dictGet, routeEventRev, hk, hne']

/-- Witness for the amended C2 at key `a` (code 65), specific callback
id 1, wildcard callback id 2, non-consuming wildcard. -/
theorem C2_dispatch_order_witness :
    keyName 65 = some "a" ∧ "a" ≠ "*" ∧
    keyEventDispatch
      [(("keydown", EvtKeyId.name "a"), [⟨1, true⟩]),
       (("keydown", EvtKeyId.name "*"), [⟨2, false⟩])]
      ⟨"keydown", 65⟩ = Except.ok [2, 1] := by
  refine ⟨by decide, by decide, ?_⟩
  have h := C2_dispatch_order 65 "a" 1 2 false (by decide) (by decide)
  simpa using h

/-- C10: a raw keyboard event whose key code is absent from
`KeyEvent.keys` raises the key-lookup error while building the typed
event — before any callback is invoked — whenever at least one wildcard
callback is subscribed for that event type (and, as for any table built
through `listenKeyEvent`, nothing is registered under the integer
default key). -/
theorem C10_unmapped_key_error (d : List (EvtKey × List Callback)) (et : String) (code : ℕ)
    (hcode : keyName code = none)
    (hzero : dictGet d (et, EvtKeyId.zero) = [])
    (hwild : dictGet d (et, EvtKeyId.name "*") ≠ []) :
    keyEventDispatch d ⟨et, code⟩ = Except.error () := by
  unfold keyEventDispatch keyEventLookupKey
  dsimp only
  rw [hcode, hzero]
  dsimp only
  rw [List.nil_append, if_pos (List.length_pos.mpr hwild)]

/-- Witness for C10: key code 10 is unmapped; with one wildcard
`keydown` subscriber the dispatch errors out. -/
theorem C10_unmapped_key_error_witness :
    keyName 10 = none ∧ dictGet c10dict ("keydown", EvtKeyId.zero) = [] ∧
    dictGet c10dict ("keydown", EvtKeyId.name "*") ≠ [] ∧
    keyEventDispatch c10dict ⟨"keydown", 10⟩ = Except.error () :=
  ⟨by decide, by decide, by decide,
    C10_unmapped_key_error c10dict "keydown" 10 (by decide) (by decide) (by decide)⟩

end GGame
